import Mathlib

/-!
Verification of the Novel-Writer session/versioning/word-accounting engine.

The definitions below are a shallow embedding of the Zustand store
(`src/store/useProjectStore.ts`) and the session handlers of
`src/components/EditorView.tsx`.  Timestamps (`Timestamp.now()`,
`Date.now()`) are modelled as `Nat` milliseconds supplied explicitly as a
`now` argument; the asynchronous Firestore write (`updateDoc`) is modelled
by a `persistOk : Bool` argument telling whether the awaited write
succeeds, and a thrown/propagated rejection is an `Except.error` result.
-/

-- ==========================================
-- DATA MODEL (types of useProjectStore.ts)
-- ==========================================

/-- Scene record: `id`, `title`, `content`, `wordCount`, `createdAt`. -/
structure Scene where
  id : String
  title : String
  content : String
  wordCount : Nat
  createdAt : Nat
deriving Repr, DecidableEq

/-- SceneSnapshot record: `sceneId` plus the captured `content`. -/
structure SceneSnapshot where
  sceneId : String
  content : String
deriving Repr, DecidableEq

/-- Session record.  `wordsWritten` is an `Int` because the code computes it
by plain subtraction, which can be negative. -/
structure Session where
  id : String
  startTime : Nat
  duration : Nat
  wordsWritten : Int
  snapshot : SceneSnapshot
deriving Repr, DecidableEq

/-- Project record with its scenes, sessions and aggregate totals. -/
structure Project where
  id : String
  name : String
  scenes : List Scene
  sessions : List Session
  totalTime : Nat
  totalWords : Nat
  createdAt : Nat
  lastModified : Nat
deriving Repr, DecidableEq

/-- The `saveStatus` field of the store. -/
inductive SaveStatus where
  | idle
  | saving
  | saved
  | error
deriving Repr, DecidableEq

/-- The slice of the store state the session/scene engine reads and writes:
`currentProject`, `activeSceneId`, `editorContent`, whether a `user` is
present (modelled as a Bool), and `saveStatus`. -/
structure StoreState where
  currentProject : Option Project
  activeSceneId : Option String
  editorContent : String
  user : Bool
  saveStatus : SaveStatus
deriving Repr, DecidableEq

-- ==========================================
-- UTILITY FUNCTIONS
-- ==========================================

/-- Helper for `countWords`: number of maximal whitespace-free runs in a
character list, which is exactly `text.trim().split(\s+).length` for text
with at least one non-whitespace character, and 0 otherwise. -/
def countTokens : List Char → Bool → Nat
  | [], _ => 0
  | c :: rest, inWord =>
    if c.isWhitespace then countTokens rest false
    else (if inWord then 0 else 1) + countTokens rest true

/-- `countWords` of useProjectStore.ts.  The DOM step of the source
(`document.createElement` / `textContent`) strips markup before counting;
that step is outside the embedding, so `content` is modelled as the
already-extracted plain text and this function is the source's
trim/split-on-whitespace token count of it. -/
def countWords (htmlContent : String) : Nat :=
  countTokens htmlContent.data false

/-- The `reduce((sum, scene) => sum + scene.wordCount, 0)` expression used
by `updateSceneContent` and `deleteScene`. -/
def sceneWordSum (scenes : List Scene) : Nat :=
  (scenes.map (fun sc => sc.wordCount)).sum

/-- `updatedScenes[sceneIndex] = updatedScene` after
`findIndex(s => s.id === sceneId)`: replace the content and recomputed
word count of the first scene whose id matches. -/
def updateFirstScene : List Scene → String → String → List Scene
  | [], _, _ => []
  | sc :: rest, sceneId, content =>
    if sc.id == sceneId then
      { sc with content := content, wordCount := countWords content } :: rest
    else
      sc :: updateFirstScene rest sceneId content

-- ==========================================
-- STORE ACTIONS (useProjectStore.ts)
-- ==========================================

/-- `setActiveSceneId` of the store: records the id (even when no scene
with that id exists) and loads the scene's content - or the empty string
when the scene is missing - into `editorContent`. -/
def setActiveSceneId (s : StoreState) (sceneId : Option String) : StoreState :=
  match s.currentProject, sceneId with
  | some p, some sid =>
    { s with
      activeSceneId := some sid,
      editorContent := ((p.scenes.find? (fun sc => sc.id == sid)).map (fun sc => sc.content)).getD "" }
  | _, _ => { s with activeSceneId := none, editorContent := "" }

/-- `setEditorContent` of the store. -/
def setEditorContent (s : StoreState) (content : String) : StoreState :=
  { s with editorContent := content }

/-- `updateSceneContent(sceneId, content)` of the store.  Guard clauses
return early with `currentProject?.totalWords || 0`; otherwise the first
matching scene's content and word count are replaced, `totalWords` is
recomputed, the optimistic update is applied, and the Firestore write is
awaited - a failing write rejects (Except.error) after the optimistic
update, with no rollback and no change to `saveStatus` here. -/
def updateSceneContent (s : StoreState) (sceneId content : String)
    (now : Nat) (persistOk : Bool) : StoreState × Except String Nat :=
  match s.currentProject with
  | none => (s, Except.ok 0)
  | some p =>
    if !s.user then (s, Except.ok p.totalWords)
    else if !(p.scenes.any (fun sc => sc.id == sceneId)) then
      (s, Except.ok p.totalWords)
    else
      let updatedScenes := updateFirstScene p.scenes sceneId content
      let totalWords := sceneWordSum updatedScenes
      let s1 : StoreState :=
        { s with currentProject := some ({ p with
            scenes := updatedScenes, totalWords := totalWords, lastModified := now }) }
      if persistOk then (s1, Except.ok totalWords)
      else (s1, Except.error "persist")

/-- The catch-branch of `createNewScene`: restore the original scene list
inside `currentProject` and set the error status. -/
def rollbackScenes (s : StoreState) (originalScenes : List Scene) : StoreState :=
  match s.currentProject with
  | some p =>
    { s with currentProject := some ({ p with scenes := originalScenes }),
             saveStatus := SaveStatus.error }
  | none => { s with saveStatus := SaveStatus.error }

/-- `createNewScene(title)` of the store: append a fresh empty scene,
optimistically update, activate it, then await the write; on failure the
scene list is rolled back and `saveStatus` becomes `error` while the
rejection propagates. -/
def createNewScene (s : StoreState) (title : String)
    (now : Nat) (persistOk : Bool) : StoreState × Except String Unit :=
  match s.currentProject with
  | none => (s, Except.error "No current project or user")
  | some p =>
    if !s.user then (s, Except.error "No current project or user")
    else
      let newScene : Scene :=
        { id := "scene_" ++ toString now, title := title, content := "",
          wordCount := 0, createdAt := now }
      let updatedScenes := p.scenes ++ [newScene]
      let s1 : StoreState :=
        { s with
          currentProject := some ({ p with
            scenes := updatedScenes, lastModified := now }),
          saveStatus := SaveStatus.saving }
      let s2 := setActiveSceneId s1 (some newScene.id)
      if persistOk then ({ s2 with saveStatus := SaveStatus.saved }, Except.ok ())
      else (rollbackScenes s2 p.scenes, Except.error "persist")

/-- `renameScene(sceneId, newTitle)` of the store: unconditionally maps the
new title onto every scene whose id matches (no emptiness or trim check),
optimistically updates, then awaits the write. -/
def renameScene (s : StoreState) (sceneId newTitle : String)
    (now : Nat) (persistOk : Bool) : StoreState × Except String Unit :=
  match s.currentProject with
  | none => (s, Except.error "No current project or user")
  | some p =>
    if !s.user then (s, Except.error "No current project or user")
    else
      let updatedScenes :=
        p.scenes.map (fun sc => if sc.id == sceneId then { sc with title := newTitle } else sc)
      let s1 : StoreState :=
        { s with
          currentProject := some ({ p with
            scenes := updatedScenes, lastModified := now }),
          saveStatus := SaveStatus.saving }
      if persistOk then ({ s1 with saveStatus := SaveStatus.saved }, Except.ok ())
      else ({ s1 with saveStatus := SaveStatus.error }, Except.error "persist")

/-- `deleteScene(sceneId)` of the store: refuses (throws) when at most one
scene remains; otherwise filters the scene out, recomputes `totalWords`,
reassigns the active scene to the first remaining one if the deleted scene
was active, and optimistically updates before awaiting the write. -/
def deleteScene (s : StoreState) (sceneId : String)
    (now : Nat) (persistOk : Bool) : StoreState × Except String Unit :=
  match s.currentProject with
  | none => (s, Except.error "No current project or user")
  | some p =>
    if !s.user then (s, Except.error "No current project or user")
    else if p.scenes.length ≤ 1 then
      (s, Except.error "Cannot delete the last scene")
    else
      let updatedScenes := p.scenes.filter (fun sc => !(sc.id == sceneId))
      let totalWords := sceneWordSum updatedScenes
      let s1 :=
        if s.activeSceneId = some sceneId then
          setActiveSceneId s (updatedScenes.head?.map (fun sc => sc.id))
        else s
      let s2 : StoreState :=
        { s1 with
          currentProject := some ({ p with
            scenes := updatedScenes, totalWords := totalWords, lastModified := now }),
          saveStatus := SaveStatus.saving }
      if persistOk then ({ s2 with saveStatus := SaveStatus.saved }, Except.ok ())
      else ({ s2 with saveStatus := SaveStatus.error }, Except.error "persist")

/-- `addSession(sessionData)` of the store: builds the Session record with
`startTime := Timestamp.now()` - the commit instant `now`, not a caller
supplied start - appends it, adds the duration to `totalTime`, and awaits
the write. -/
def addSession (s : StoreState) (duration : Nat) (wordsWritten : Int)
    (sceneId content : String) (now : Nat) (persistOk : Bool) :
    StoreState × Except String Unit :=
  match s.currentProject with
  | none => (s, Except.error "No current project or user")
  | some p =>
    if !s.user then (s, Except.error "No current project or user")
    else
      let snapshot : SceneSnapshot := { sceneId := sceneId, content := content }
      let newSession : Session :=
        { id := "session_" ++ toString now, startTime := now,
          duration := duration, wordsWritten := wordsWritten, snapshot := snapshot }
      let updatedSessions := p.sessions ++ [newSession]
      let updatedTime := p.totalTime + duration
      let s1 : StoreState :=
        { s with currentProject := some ({ p with
            sessions := updatedSessions, totalTime := updatedTime, lastModified := now }) }
      if persistOk then ({ s1 with saveStatus := SaveStatus.saved }, Except.ok ())
      else ({ s1 with saveStatus := SaveStatus.error }, Except.error "persist")

-- ==========================================
-- EDITOR VIEW SESSION HANDLERS (EditorView.tsx)
-- ==========================================

/-- The session-local component state of EditorView: `isWriting`,
`sessionTime` (the displayed elapsed ms), `sessionStartTime` and
`initialWordCount`. -/
structure EditorSession where
  isWriting : Bool
  sessionTime : Nat
  sessionStartTime : Option Nat
  initialWordCount : Nat
deriving Repr, DecidableEq

/-- `handleStartSession`: capture the project total as `initialWordCount`,
capture `sessionStartTime := Date.now()`, enter the Writing state. -/
def handleStartSession (s : StoreState) (es : EditorSession) (now : Nat) : EditorSession :=
  { es with
    initialWordCount := (s.currentProject.map (fun p => p.totalWords)).getD 0,
    sessionStartTime := some now,
    isWriting := true }

/-- The body of the once-per-second session timer effect:
`setSessionTime(Date.now() - (sessionStartTime || Date.now()))`, active only
while `isWriting`. -/
def sessionTick (es : EditorSession) (now : Nat) : EditorSession :=
  if es.isWriting then
    { es with sessionTime := now - es.sessionStartTime.getD now }
  else es

/-- `handleEndSession`: guard on an active scene and project, leave the
Writing state, take `duration` from the displayed `sessionTime`, flush the
editor content through `updateSceneContent` to get the final total, compute
`wordsWritten` by plain subtraction, append the session, reset the display.
A rejected flush propagates before `addSession` runs. -/
def handleEndSession (s : StoreState) (es : EditorSession)
    (nowEnd : Nat) (persistOk : Bool) : StoreState × EditorSession :=
  match s.activeSceneId, s.currentProject with
  | some sid, some _ =>
    let es1 : EditorSession := { es with isWriting := false }
    let duration := es.sessionTime
    match updateSceneContent s sid s.editorContent nowEnd persistOk with
    | (s1, Except.ok finalWordCount) =>
      let wordsWritten : Int := (finalWordCount : Int) - (es.initialWordCount : Int)
      let s2 := (addSession s1 duration wordsWritten sid s.editorContent nowEnd persistOk).1
      (s2, { es1 with sessionTime := 0 })
    | (s1, Except.error _) => (s1, es1)
  | _, _ => (s, es)

/-- `handleRevert(session)`: after the confirm dialog, write the snapshot
content into the editor buffer, save it through `updateSceneContent`, then
activate the snapshot's scene.  There is no check that the scene still
exists. -/
def handleRevert (s : StoreState) (session : Session) (confirmed : Bool)
    (now : Nat) (persistOk : Bool) : StoreState :=
  if !confirmed then s
  else
    let sid := session.snapshot.sceneId
    let content := session.snapshot.content
    let s1 := setEditorContent s content
    match updateSceneContent s1 sid content now persistOk with
    | (s2, Except.ok _) => setActiveSceneId s2 (some sid)
    | (s2, Except.error _) => s2

/-- `handleRename` of EditorView: calls `renameScene` whenever an editing
id is set and the edited title is truthy, i.e. any non-empty string -
including whitespace-only titles. -/
def handleRename (s : StoreState) (editingSceneId : Option String)
    (editingSceneTitle : String) (now : Nat) (persistOk : Bool) : StoreState :=
  match editingSceneId with
  | some sid =>
    if editingSceneTitle == "" then s
    else (renameScene s sid editingSceneTitle now persistOk).1
  | none => s

-- ==========================================
-- DERIVED NOTIONS FOR THE CLAIMS
-- ==========================================

/-- The word-accounting invariant of the spec on one project:
`totalWords == sum(scene.wordCount for scene in scenes)`. -/
def projectWordsConsistent (p : Project) : Bool :=
  p.totalWords == sceneWordSum p.scenes

/-- The invariant lifted to the store state (vacuous without a project). -/
def storeWordsConsistent (s : StoreState) : Bool :=
  match s.currentProject with
  | none => true
  | some p => projectWordsConsistent p

/-- The scene-touching store operations named by the invariant claim. -/
inductive SceneOp where
  | update (sceneId content : String)
  | create (title : String)
  | delete (sceneId : String)
deriving Repr, DecidableEq

/-- Dispatch one scene-touching operation against the store. -/
def applySceneOp (s : StoreState) (op : SceneOp) (now : Nat) (persistOk : Bool) : StoreState :=
  match op with
  | SceneOp.update sid c => (updateSceneContent s sid c now persistOk).1
  | SceneOp.create t => (createNewScene s t now persistOk).1
  | SceneOp.delete sid => (deleteScene s sid now persistOk).1

-- ==========================================
-- CONCRETE FIXTURES
-- ==========================================

/-- A scene holding the three-word text used by the concrete runs. -/
def baseScene : Scene :=
  { id := "s1", title := "Chapter 1", content := "a b c", wordCount := 3, createdAt := 0 }

/-- A project holding `baseScene`, with a consistent `totalWords` of 3. -/
def baseProject : Project :=
  { id := "p1", name := "Novel", scenes := [baseScene], sessions := [],
    totalTime := 0, totalWords := 3, createdAt := 0, lastModified := 0 }

/-- A store state with `baseProject` open, `baseScene` active, a signed-in
user, and the scene content loaded in the editor. -/
def baseState : StoreState :=
  { currentProject := some baseProject, activeSceneId := some "s1",
    editorContent := "a b c", user := true, saveStatus := SaveStatus.idle }

/-- A second scene, used by the two-scene deletion runs. -/
def secondScene : Scene :=
  { id := "s2", title := "Chapter 2", content := "d e", wordCount := 2, createdAt := 1 }

/-- A project holding both scenes, with a consistent `totalWords` of 5. -/
def twoSceneProject : Project :=
  { id := "p2", name := "Novel2", scenes := [baseScene, secondScene], sessions := [],
    totalTime := 0, totalWords := 5, createdAt := 0, lastModified := 0 }

/-- A store state with `twoSceneProject` open and the first scene active. -/
def twoSceneState : StoreState :=
  { currentProject := some twoSceneProject, activeSceneId := some "s1",
    editorContent := "a b c", user := true, saveStatus := SaveStatus.idle }

/-- A store state with no project open. -/
def noProjectState : StoreState :=
  { currentProject := none, activeSceneId := none,
    editorContent := "", user := true, saveStatus := SaveStatus.idle }

/-- The initial session-local component state of EditorView. -/
def initialEditor : EditorSession :=
  { isWriting := false, sessionTime := 0, sessionStartTime := none, initialWordCount := 0 }

/-- A session whose snapshot references the scene id "ghost", which exists
in no fixture project. -/
def ghostSession : Session :=
  { id := "sess1", startTime := 0, duration := 5, wordsWritten := 1,
    snapshot := { sceneId := "ghost", content := "old text" } }

/-- A title is empty after trimming exactly when all its characters are
whitespace (the `newTitle.trim()` emptiness test of the spec). -/
def trimEmpty (t : String) : Bool :=
  t.data.all Char.isWhitespace

-- ==========================================
-- HELPER LEMMAS
-- ==========================================

theorem sceneWordSum_append (l : List Scene) (sc : Scene) :
    sceneWordSum (l ++ [sc]) = sceneWordSum l + sc.wordCount := by
  simp [sceneWordSum]

theorem length_filter_not_add_countP {α : Type} (q : α → Bool) (l : List α) :
    (l.filter (fun a => !(q a))).length + l.countP q = l.length := by
  induction l with
  | nil => simp
  | cons a t ih =>
    cases hq : q a <;> simp [List.filter_cons, List.countP_cons, hq] <;> omega

theorem setActiveSceneId_currentProject (s : StoreState) (o : Option String) :
    (setActiveSceneId s o).currentProject = s.currentProject := by
  unfold setActiveSceneId
  split <;> rfl

theorem setActiveSceneId_activeSceneId (s : StoreState) (p : Project) (o : Option String)
    (hp : s.currentProject = some p) : (setActiveSceneId s o).activeSceneId = o := by
  obtain ⟨cp, act, ec, u, st⟩ := s
  simp only at hp
  subst hp
  cases o <;> simp [setActiveSceneId]

theorem updateFirstScene_idem (l : List Scene) (sid c : String) :
    updateFirstScene (updateFirstScene l sid c) sid c = updateFirstScene l sid c := by
  induction l with
  | nil => rfl
  | cons sc rest ih =>
    cases h : sc.id == sid <;> simp [updateFirstScene, h, ih]

theorem updateFirstScene_any (l : List Scene) (sid c sid2 : String) :
    (updateFirstScene l sid c).any (fun sc => sc.id == sid2) =
      l.any (fun sc => sc.id == sid2) := by
  induction l with
  | nil => rfl
  | cons sc rest ih =>
    cases h : sc.id == sid <;> simp [updateFirstScene, h, ih]

-- ==========================================
-- CLAIM THEOREMS
-- ==========================================

/-- C1: the claim states that a session ended via endSession records
`wordsWritten = max(0, finalTotalWords - initialWordCount)`, never
negative.  The code computes `finalWordCount - initialWordCount` with no
flooring: in a concrete run that starts a session on a 3-word project,
shortens the scene text to one word and ends the session, the recorded
`wordsWritten` is -2 (the claim demands 0). -/
theorem endSession_records_negative_wordsWritten :
    ((handleEndSession (setEditorContent baseState "a")
        (handleStartSession baseState initialEditor 0) 50 true).1.currentProject.map
      (fun p => p.sessions.map Session.wordsWritten)).getD [] = [(-2 : Int)] ∧
    (-2 : Int) < 0 := by decide

/-- C4: the claim states that reverting a session whose snapshot references
a scene id absent from the current project fails with an explicit
"scene no longer exists" condition and mutates nothing.  The code has no
such check: reverting `ghostSession` (scene id "ghost", absent from the
project) completes without any error signal, overwrites the editor buffer
(ending at the empty string, since activating the missing scene loads ""),
and assigns the dangling id as the active scene. -/
theorem revert_missing_scene_mutates_state :
    (handleRevert baseState ghostSession true 10 true).activeSceneId = some "ghost" ∧
    (handleRevert baseState ghostSession true 10 true).editorContent = "" ∧
    handleRevert baseState ghostSession true 10 true ≠ baseState := by decide

/-- C8: the claim states that renameScene with a title that is empty after
trimming is a no-op.  Neither `renameScene` nor the `handleRename` caller
trims: the caller only skips the empty string, so the whitespace-only
title " " - empty after trimming - is applied to the scene. -/
theorem renameScene_applies_whitespace_title :
    trimEmpty " " = true ∧
    ((handleRename baseState (some "s1") " " 5 true).currentProject.map
      (fun p => p.scenes.map Scene.title)).getD [] = [" "] ∧
    ((renameScene baseState "s1" " " 5 true).1.currentProject.map
      (fun p => p.scenes.map Scene.title)).getD [] = [" "] := by decide

/-- C10: updateSceneContent with no current project returns 0; with a
project but no user it returns the project's total; with a scene id absent
from the scene list it returns the current total - in all three cases the
store state is returned unchanged and the result does not depend on the
persistence outcome, so no write is attempted. -/
theorem updateSceneContent_guard_behaviour (s : StoreState) (sid c : String)
    (now : Nat) (ok : Bool) :
    (s.currentProject = none → updateSceneContent s sid c now ok = (s, Except.ok 0)) ∧
    (∀ p, s.currentProject = some p → s.user = false →
      updateSceneContent s sid c now ok = (s, Except.ok p.totalWords)) ∧
    (∀ p, s.currentProject = some p →
      p.scenes.any (fun sc => sc.id == sid) = false →
      updateSceneContent s sid c now ok = (s, Except.ok p.totalWords)) := by
  obtain ⟨cp, act, ec, u, st⟩ := s
  refine ⟨?_, ?_, ?_⟩
  · intro h
    simp only at h
    subst h
    rfl
  · intro p h hu
    simp only at h hu
    subst h
    subst hu
    rfl
  · intro p h hany
    simp only at h
    subst h
    cases u with
    | false => rfl
    | true => simp [updateSceneContent, hany]

/-- C10 witness: the guard theorem applied to the no-project state. -/
theorem updateSceneContent_guard_witness :
    updateSceneContent noProjectState "sX" "hi" 3 false = (noProjectState, Except.ok 0) :=
  (updateSceneContent_guard_behaviour noProjectState "sX" "hi" 3 false).1 rfl

/-- C2: after each scene-touching store operation - updateSceneContent,
createNewScene, deleteScene - the current project's `totalWords` equals the
sum of `wordCount` over its scenes, provided it did before the operation.
updateSceneContent and deleteScene recompute the total outright;
createNewScene appends a zero-word scene without touching the total, and
its rollback path restores the original scene list - every path preserves
the invariant, whether or not the persistence write succeeds. -/
theorem sceneOps_preserve_word_invariant (s : StoreState) (op : SceneOp) (now : Nat) (ok : Bool)
    (h : storeWordsConsistent s = true) :
    storeWordsConsistent (applySceneOp s op now ok) = true := by
  obtain ⟨cp, act, ec, u, st⟩ := s
  cases cp with
  | none =>
    cases op <;> cases u <;>
      simp_all [applySceneOp, updateSceneContent, createNewScene, deleteScene,
        storeWordsConsistent]
  | some p =>
    cases u with
    | false =>
      cases op <;>
        simpa [applySceneOp, updateSceneContent, createNewScene, deleteScene,
          storeWordsConsistent] using h
    | true =>
      simp only [storeWordsConsistent, projectWordsConsistent, beq_iff_eq] at h
      cases op with
      | update sid c =>
        by_cases hf : p.scenes.any (fun sc => sc.id == sid) = true
        · cases ok <;>
            simp [applySceneOp, updateSceneContent, hf, storeWordsConsistent,
              projectWordsConsistent]
        · rw [Bool.not_eq_true] at hf
          simp [applySceneOp, updateSceneContent, hf, storeWordsConsistent,
            projectWordsConsistent, h]
      | create t =>
        cases ok <;>
          simp [applySceneOp, createNewScene, setActiveSceneId, rollbackScenes,
            storeWordsConsistent, projectWordsConsistent, sceneWordSum_append, h]
      | delete sid =>
        by_cases hlen : p.scenes.length ≤ 1
        · simp [applySceneOp, deleteScene, hlen, storeWordsConsistent,
            projectWordsConsistent, h]
        · by_cases hact : act = some sid <;> cases ok <;>
            simp [applySceneOp, deleteScene, hlen, hact, setActiveSceneId,
              storeWordsConsistent, projectWordsConsistent]

/-- C2 witness: the invariant theorem applied to a concrete content update
on the base fixture. -/
theorem sceneOps_word_invariant_witness :
    storeWordsConsistent (applySceneOp baseState (SceneOp.update "s1" "x y") 7 true) = true :=
  sceneOps_preserve_word_invariant baseState (SceneOp.update "s1" "x y") 7 true (by decide)

/-- C7: with a current project and user, deleteScene refuses (rejects with
"Cannot delete the last scene") when at most one scene remains, so a
project never drops to zero scenes; otherwise, when the target id occurs
exactly once, it removes exactly that scene, recomputes `totalWords` as the
remaining scenes' word sum, reassigns the active scene to the first
remaining scene when the deleted scene was active, and leaves the active
scene alone otherwise. -/
theorem deleteScene_refuses_last_and_removes_exactly (s : StoreState) (p : Project)
    (sceneId : String) (now : Nat) (ok : Bool)
    (hp : s.currentProject = some p) (hu : s.user = true) :
    (p.scenes.length ≤ 1 →
      deleteScene s sceneId now ok = (s, Except.error "Cannot delete the last scene")) ∧
    (1 < p.scenes.length →
      p.scenes.countP (fun sc => sc.id == sceneId) = 1 →
      ((deleteScene s sceneId now ok).1.currentProject.map Project.scenes =
          some (p.scenes.filter (fun sc => !(sc.id == sceneId))) ∧
       (p.scenes.filter (fun sc => !(sc.id == sceneId))).length + 1 = p.scenes.length ∧
       1 ≤ (p.scenes.filter (fun sc => !(sc.id == sceneId))).length ∧
       (deleteScene s sceneId now ok).1.currentProject.map Project.totalWords =
          some (sceneWordSum (p.scenes.filter (fun sc => !(sc.id == sceneId)))) ∧
       (s.activeSceneId = some sceneId →
          (deleteScene s sceneId now ok).1.activeSceneId =
            (p.scenes.filter (fun sc => !(sc.id == sceneId))).head?.map (fun sc => sc.id)) ∧
       (s.activeSceneId ≠ some sceneId →
          (deleteScene s sceneId now ok).1.activeSceneId = s.activeSceneId))) := by
  obtain ⟨cp, act, ec, u, st⟩ := s
  simp only at hp hu
  subst hp; subst hu
  constructor
  · intro hlen
    simp [deleteScene, hlen]
  · intro hlen hcount
    have hlen2 : ¬ (p.scenes.length ≤ 1) := by omega
    have hfl := length_filter_not_add_countP (fun sc => sc.id == sceneId) p.scenes
    refine ⟨?_, ?_, ?_, ?_, ?_, ?_⟩
    · cases ok <;> simp [deleteScene, hlen2]
    · omega
    · omega
    · cases ok <;> simp [deleteScene, hlen2]
    · intro hact
      simp only at hact
      cases ok <;> simp [deleteScene, hlen2, hact] <;>
        exact setActiveSceneId_activeSceneId _ p _ rfl
    · intro hact
      simp only at hact
      cases ok <;> simp [deleteScene, hlen2, hact]

/-- C7 witness: deleting the first of two scenes from the two-scene fixture
leaves exactly the second scene. -/
theorem deleteScene_witness :
    (deleteScene twoSceneState "s1" 9 true).1.currentProject.map Project.scenes =
      some (twoSceneProject.scenes.filter (fun sc => !(sc.id == "s1"))) :=
  ((deleteScene_refuses_last_and_removes_exactly twoSceneState twoSceneProject "s1" 9 true
      rfl rfl).2 (by decide) (by decide)).1

theorem handleEndSession_project (s : StoreState) (p : Project) (es : EditorSession)
    (sid : String) (nowEnd : Nat)
    (hp : s.currentProject = some p) (ha : s.activeSceneId = some sid) (hu : s.user = true)
    (hfound : p.scenes.any (fun sc => sc.id == sid) = true) :
    ∃ q, (handleEndSession s es nowEnd true).1.currentProject = some q ∧
      q.sessions = p.sessions ++
        [{ id := "session_" ++ toString nowEnd, startTime := nowEnd,
           duration := es.sessionTime,
           wordsWritten :=
             ((sceneWordSum (updateFirstScene p.scenes sid s.editorContent) : Int) -
               (es.initialWordCount : Int)),
           snapshot := { sceneId := sid, content := s.editorContent } }] := by
  obtain ⟨cp, act, ec, u, st⟩ := s
  simp only at hp ha hu
  subst hp; subst ha; subst hu
  simp [handleEndSession, updateSceneContent, hfound, addSession]

/-- C3: the claim states that a content update whose persistence write
fails rolls the in-memory state back to its pre-update value.  At a
concrete store, a failing `updateSceneContent` write leaves a state
different from the pre-update one: the optimistic update is kept. -/
theorem updateSceneContent_failure_not_rolled_back_cex :
    (updateSceneContent baseState "s1" "new words" 9 false).1 ≠ baseState := by decide

/-- C3 (amended): when the persistence write of updateSceneContent fails,
the rejection is surfaced to the caller as an error result, but the
in-memory state keeps the optimistic update - it equals the state a
successful write would leave, with no rollback.  createNewScene, by
contrast, does roll its optimistic scene-list update back and sets the
error status on a failing write. -/
theorem updateSceneContent_failure_keeps_update_createNewScene_rolls_back
    (s : StoreState) (p : Project) (sid c t : String) (now : Nat)
    (hp : s.currentProject = some p) (hu : s.user = true)
    (hfound : p.scenes.any (fun sc => sc.id == sid) = true) :
    (updateSceneContent s sid c now false).2 = Except.error "persist" ∧
    (updateSceneContent s sid c now false).1 = (updateSceneContent s sid c now true).1 ∧
    (createNewScene s t now false).1.currentProject.map Project.scenes = some p.scenes ∧
    (createNewScene s t now false).1.saveStatus = SaveStatus.error ∧
    (createNewScene s t now false).2 = Except.error "persist" := by
  obtain ⟨cp, act, ec, u, st⟩ := s
  simp only at hp hu
  subst hp; subst hu
  refine ⟨?_, ?_, ?_, ?_, ?_⟩ <;>
    simp [updateSceneContent, createNewScene, setActiveSceneId, rollbackScenes, hfound]

/-- C3 witness: the amended theorem applied to the base fixture. -/
theorem updateSceneContent_failure_witness :
    (updateSceneContent baseState "s1" "x" 4 false).2 = Except.error "persist" :=
  (updateSceneContent_failure_keeps_update_createNewScene_rolls_back baseState baseProject
    "s1" "x" "T" 4 rfl rfl (by decide)).1

/-- C5: the claim states that the recorded duration equals
`now() - sessionStartTime` computed at session-end.  In a concrete run
that starts at 0, last ticks at 1000 and ends at 1500, the recorded
duration is 1000 - the displayed tick value - not 1500. -/
theorem endSession_duration_not_recomputed_cex :
    ((handleEndSession baseState
        (sessionTick (handleStartSession baseState initialEditor 0) 1000)
        1500 true).1.currentProject.map
      (fun p => p.sessions.map Session.duration)).getD [] = [1000] ∧
    (1000 : Nat) ≠ 1500 - 0 := by decide

/-- C5 (amended): the recorded duration is the displayed `sessionTime`
maintained by the once-per-second tick: when the last tick ran at `tLast`
for a session started at `st`, the session appended at any end instant
`nowEnd` carries duration `tLast - st`, independent of `nowEnd`. -/
theorem endSession_duration_is_last_tick (s : StoreState) (p : Project) (es0 : EditorSession)
    (sid : String) (st tLast nowEnd : Nat)
    (hp : s.currentProject = some p) (ha : s.activeSceneId = some sid) (hu : s.user = true)
    (hfound : p.scenes.any (fun sc => sc.id == sid) = true) :
    ((handleEndSession s
        (sessionTick { es0 with isWriting := true, sessionStartTime := some st } tLast)
        nowEnd true).1.currentProject.map
      (fun q => q.sessions.map Session.duration)) =
      some (p.sessions.map Session.duration ++ [tLast - st]) := by
  obtain ⟨q, hq, hsess⟩ :=
    handleEndSession_project s p
      (sessionTick { es0 with isWriting := true, sessionStartTime := some st } tLast)
      sid nowEnd hp ha hu hfound
  rw [hq]
  simp [hsess, sessionTick]

/-- C5 witness: the amended theorem applied to the base fixture with a
last tick at 1000 and the end at 50. -/
theorem endSession_duration_witness :
    ((handleEndSession baseState
        (sessionTick { initialEditor with isWriting := true, sessionStartTime := some 0 } 1000)
        50 true).1.currentProject.map
      (fun q => q.sessions.map Session.duration)) =
      some (baseProject.sessions.map Session.duration ++ [1000 - 0]) :=
  endSession_duration_is_last_tick baseState baseProject initialEditor "s1" 0 1000 50
    rfl rfl rfl (by decide)

/-- C6: the claim states that a Session's startTime equals the instant
captured at startSession.  In a concrete run started at 100 and ended at
200, the captured start is 100, yet the appended session's startTime is
200: the commit instant. -/
theorem session_startTime_not_captured_start_cex :
    (handleStartSession baseState initialEditor 100).sessionStartTime = some 100 ∧
    ((handleEndSession baseState (handleStartSession baseState initialEditor 100)
        200 true).1.currentProject.map
      (fun p => p.sessions.map Session.startTime)).getD [] = [200] ∧
    (200 : Nat) ≠ 100 := by decide

/-- C6 (amended): the appended Session's startTime is stamped inside
addSession with the commit instant of session end, whatever start instant
the editor session state captured. -/
theorem session_startTime_is_commit_instant (s : StoreState) (p : Project)
    (es : EditorSession) (sid : String) (nowEnd : Nat)
    (hp : s.currentProject = some p) (ha : s.activeSceneId = some sid) (hu : s.user = true)
    (hfound : p.scenes.any (fun sc => sc.id == sid) = true) :
    ((handleEndSession s es nowEnd true).1.currentProject.map
      (fun q => q.sessions.map Session.startTime)) =
      some (p.sessions.map Session.startTime ++ [nowEnd]) := by
  obtain ⟨q, hq, hsess⟩ := handleEndSession_project s p es sid nowEnd hp ha hu hfound
  rw [hq]
  simp [hsess]

/-- C6 witness: the amended theorem applied to the base fixture, ending at
instant 77. -/
theorem session_startTime_witness :
    ((handleEndSession baseState initialEditor 77 true).1.currentProject.map
      (fun q => q.sessions.map Session.startTime)) =
      some (baseProject.sessions.map Session.startTime ++ [77]) :=
  session_startTime_is_commit_instant baseState baseProject initialEditor "s1" 77
    rfl rfl rfl (by decide)

/-- C9: the claim states that a second identical updateSceneContent call
triggers no observable change to the project state.  At a concrete store
whose scene already holds the written content, the second call still
changes the state: it refreshes `lastModified` (and re-issues the write). -/
theorem updateContent_second_call_changes_state_cex :
    (updateSceneContent (updateSceneContent baseState "s1" "a b c" 1 true).1
        "s1" "a b c" 2 true).1
      ≠ (updateSceneContent baseState "s1" "a b c" 1 true).1 := by decide

/-- C9 (amended): calling updateSceneContent twice with the same content
returns the same result both times and leaves the scene list and
`totalWords` of the first call unchanged; the only project-state change of
the second call is that `lastModified` is refreshed to the second call's
instant (and the persistence write is re-issued). -/
theorem updateContent_idempotent_up_to_lastModified (s : StoreState) (p : Project)
    (sid c : String) (n1 n2 : Nat)
    (hp : s.currentProject = some p) (hu : s.user = true)
    (hfound : p.scenes.any (fun sc => sc.id == sid) = true) :
    ((updateSceneContent (updateSceneContent s sid c n1 true).1 sid c n2 true).2 =
        (updateSceneContent s sid c n1 true).2) ∧
    ((updateSceneContent (updateSceneContent s sid c n1 true).1 sid c n2 true).1.currentProject.map
        Project.scenes =
      (updateSceneContent s sid c n1 true).1.currentProject.map Project.scenes) ∧
    ((updateSceneContent (updateSceneContent s sid c n1 true).1 sid c n2 true).1.currentProject.map
        Project.totalWords =
      (updateSceneContent s sid c n1 true).1.currentProject.map Project.totalWords) ∧
    ((updateSceneContent (updateSceneContent s sid c n1 true).1 sid c n2 true).1.currentProject.map
        Project.lastModified = some n2) := by
  obtain ⟨cp, act, ec, u, st⟩ := s
  simp only at hp hu
  subst hp; subst hu
  have hfound2 : (updateFirstScene p.scenes sid c).any (fun sc => sc.id == sid) = true := by
    rw [updateFirstScene_any]
    exact hfound
  simp [updateSceneContent, hfound, hfound2, updateFirstScene_idem]

/-- C9 witness: the amended idempotence theorem applied to the base
fixture, whose scene already holds the written content. -/
theorem updateContent_idem_witness :
    (updateSceneContent (updateSceneContent baseState "s1" "a b c" 1 true).1
        "s1" "a b c" 2 true).1.currentProject.map Project.lastModified = some 2 :=
  (updateContent_idempotent_up_to_lastModified baseState baseProject "s1" "a b c" 1 2
    rfl rfl (by decide)).2.2.2
